import Mathlib

/-!
Shallow embedding of the reference-guard layer of the dashmap fork
(`src/mapref/one.rs` and `src/mapref/multiple.rs`).

Modelling conventions:
- A Rust shared reference `&X` held inside a guard struct is modelled by the
  value of type `X` it points at; a reference-valued result of a projection
  closure `FnOnce(&V) -> &T` is modelled as a pure function `V → T`.
- A closure receiving a mutable reference, `FnOnce(&mut V) -> Y`, may both
  mutate the pointee and return a view into it, so it is modelled by explicit
  state passing as `V → V × Y`: the first component is the pointee as the
  closure leaves it, the second is what the closure returns (with `&mut T`
  results modelled as the value of type `T`).
- `Result<Ok, Err>` is modelled as `Except Err Ok`.
- The lock guards live in `lock.rs`, which is not part of the provided source;
  they are modelled from the spec as opaque tokens, plus a lock-state machine
  for the mode-conversion behaviour the spec describes.
- `Arc` reference counting (std) is modelled by explicit state passing: the
  shared counted cell created by `map_split` is returned alongside the two
  halves, with `new`/`clone`/`drop` following `Arc`'s documented semantics.
-/

/-- Modelled from the spec: `RwLockReadGuardDetached` from `lock.rs` (not under
`src/`): a detached shared-mode guard of one shard's lock, opaque to this
layer; carried as a token identified by its shard. -/
structure RwLockReadGuardDetached where
  shard : Nat
deriving DecidableEq

/-- Modelled from the spec: `RwLockWriteGuardDetached` from `lock.rs` (not
under `src/`): a detached exclusive-mode guard of one shard's lock. -/
structure RwLockWriteGuardDetached where
  shard : Nat
deriving DecidableEq

/-- Modelled from the spec: `RwLockWriteGuardDetached::downgrade` (in
`lock.rs`, not under `src/`) converts a held write guard into a read guard of
the same shard in place. -/
def RwLockWriteGuardDetached.downgrade (g : RwLockWriteGuardDetached) :
    RwLockReadGuardDetached :=
  ⟨g.shard⟩

/-- Modelled from the spec: the state of one shard's read/write lock
(spec section 3, Exclusivity invariant: any number of readers or exactly one
writer, never both). -/
inductive LockState where
  | unlocked : LockState
  | readLocked (readers : Nat) : LockState
  | writeLocked : LockState
deriving DecidableEq

/-- A writer can acquire the shard lock only when it is unlocked. -/
def canAcquireWrite : LockState → Bool
  | .unlocked => true
  | .readLocked _ => false
  | .writeLocked => false

/-- Modelled from the spec: the lock-mode conversion performed by
`RwLockWriteGuardDetached::downgrade` (in `lock.rs`, not under `src/`) is a
single atomic transition from write-locked to read-locked with one reader;
it is undefined in any other state and never passes through `unlocked`. -/
def downgradeLock : LockState → Option LockState
  | .writeLocked => some (.readLocked 1)
  | .unlocked => none
  | .readLocked _ => none

/-- Explicit-state model of the `Arc` cell built by `map_split`: the single
guard together with its strong reference count. `Arc::new` gives count 1,
each `clone` adds one owner, each drop of an owner removes one, and the inner
guard is dropped (the lock released) exactly when the count reaches zero. -/
structure SharedGuard (G : Type) where
  guard : G
  count : Nat
deriving DecidableEq

/-- Model of `Arc::new`: one owner. -/
def SharedGuard.new {G : Type} (g : G) : SharedGuard G :=
  ⟨g, 1⟩

/-- Model of `Arc::clone`: one more owner of the same cell. -/
def SharedGuard.clone {G : Type} (s : SharedGuard G) : SharedGuard G :=
  ⟨s.guard, s.count + 1⟩

/-- Model of dropping one owner of the cell. -/
def SharedGuard.dropOwner {G : Type} (s : SharedGuard G) : SharedGuard G :=
  ⟨s.guard, s.count - 1⟩

/-- The inner guard has been dropped, i.e. the shard lock released. -/
def SharedGuard.isReleased {G : Type} (s : SharedGuard G) : Bool :=
  s.count = 0

/-- `Ref` from `one.rs`: a read guard paired with the borrowed key and value. -/
structure Ref (K V : Type) where
  _guard : RwLockReadGuardDetached
  k : K
  v : V

/-- `Ref::new`. -/
def Ref.new {K V : Type} (guard : RwLockReadGuardDetached) (k : K) (v : V) :
    Ref K V :=
  ⟨guard, k, v⟩

/-- `Ref::pair`. -/
def Ref.pair {K V : Type} (r : Ref K V) : K × V :=
  (r.k, r.v)

/-- `Ref::key` (defined through `pair`, as in the source). -/
def Ref.key {K V : Type} (r : Ref K V) : K :=
  r.pair.1

/-- `Ref::value` (defined through `pair`, as in the source). -/
def Ref.value {K V : Type} (r : Ref K V) : V :=
  r.pair.2

/-- `Deref for Ref`: dereferencing yields `value()`. -/
def Ref.deref {K V : Type} (r : Ref K V) : V :=
  r.value

/-- `MappedRef` from `one.rs`: a read guard, the borrowed key, and a projected
view of the value. -/
structure MappedRef (K T : Type) where
  _guard : RwLockReadGuardDetached
  k : K
  v : T

/-- `MappedRef::pair`. -/
def MappedRef.pair {K T : Type} (m : MappedRef K T) : K × T :=
  (m.k, m.v)

/-- `MappedRef::key`. -/
def MappedRef.key {K T : Type} (m : MappedRef K T) : K :=
  m.pair.1

/-- `MappedRef::value`. -/
def MappedRef.value {K T : Type} (m : MappedRef K T) : T :=
  m.pair.2

/-- `Deref for MappedRef`. -/
def MappedRef.deref {K T : Type} (m : MappedRef K T) : T :=
  m.value

/-- `Ref::map`: moves the guard and key into a `MappedRef` exposing `f`'s
result. -/
def Ref.map {K V T : Type} (r : Ref K V) (f : V → T) : MappedRef K T :=
  ⟨r._guard, r.k, f r.v⟩

/-- `Ref::try_map`: on `some` the projected reference is returned, on `none`
the whole original reference is handed back as the error. -/
def Ref.try_map {K V T : Type} (r : Ref K V) (f : V → Option T) :
    Except (Ref K V) (MappedRef K T) :=
  match f r.v with
  | some v => Except.ok ⟨r._guard, r.k, v⟩
  | none => Except.error r

/-- `RefMulti` from `multiple.rs`: a half produced by `map_split`, holding the
shared guard (the `Arc`ed cell's content; the count is threaded explicitly,
see `SharedGuard`). -/
structure RefMulti (K V : Type) where
  _guard : RwLockReadGuardDetached
  k : K
  v : V

/-- `RefMulti::pair`. -/
def RefMulti.pair {K V : Type} (r : RefMulti K V) : K × V :=
  (r.k, r.v)

/-- `RefMulti::key`. -/
def RefMulti.key {K V : Type} (r : RefMulti K V) : K :=
  r.pair.1

/-- `RefMulti::value`. -/
def RefMulti.value {K V : Type} (r : RefMulti K V) : V :=
  r.pair.2

/-- `Deref for RefMulti`. -/
def RefMulti.deref {K V : Type} (r : RefMulti K V) : V :=
  r.value

/-- `Ref::map_split`: applies the splitting function, moves the guard into a
shared `Arc` cell (count 1), clones it for the first half (count 2), and
returns the two halves; the cell's state is returned explicitly. -/
def Ref.map_split {K V A B : Type} (r : Ref K V) (f : V → A × B) :
    (RefMulti K A × RefMulti K B) × SharedGuard RwLockReadGuardDetached :=
  let ab := f r.v
  let guard := SharedGuard.new r._guard
  let guard2 := guard.clone
  ((⟨r._guard, r.k, ab.1⟩, ⟨r._guard, r.k, ab.2⟩), guard2)

/-- `RefMut` from `one.rs`: a write guard paired with the borrowed key and
the exclusively borrowed value. -/
structure RefMut (K V : Type) where
  guard : RwLockWriteGuardDetached
  k : K
  v : V

/-- `RefMut::new`. -/
def RefMut.new {K V : Type} (guard : RwLockWriteGuardDetached) (k : K) (v : V) :
    RefMut K V :=
  ⟨guard, k, v⟩

/-- `RefMut::pair`. -/
def RefMut.pair {K V : Type} (m : RefMut K V) : K × V :=
  (m.k, m.v)

/-- `RefMut::pair_mut`: the read-only key together with the exclusive value. -/
def RefMut.pair_mut {K V : Type} (m : RefMut K V) : K × V :=
  (m.k, m.v)

/-- `RefMut::key`. -/
def RefMut.key {K V : Type} (m : RefMut K V) : K :=
  m.pair.1

/-- `RefMut::value`. -/
def RefMut.value {K V : Type} (m : RefMut K V) : V :=
  m.pair.2

/-- `RefMut::value_mut` (defined through `pair_mut`, as in the source). -/
def RefMut.value_mut {K V : Type} (m : RefMut K V) : V :=
  m.pair_mut.2

/-- `Deref for RefMut`. -/
def RefMut.deref {K V : Type} (m : RefMut K V) : V :=
  m.value

/-- `DerefMut for RefMut` (the exposed target, read side). -/
def RefMut.derefMut {K V : Type} (m : RefMut K V) : V :=
  m.value_mut

/-- Models the Rust assignment through the exclusive reference
(`*m.value_mut() = v2`): the guard and key are untouched, the pointee is
replaced. -/
def RefMut.write {K V : Type} (m : RefMut K V) (v2 : V) : RefMut K V :=
  ⟨m.guard, m.k, v2⟩

/-- `RefMut::downgrade`: converts the write guard in place and rebuilds a
`Ref` over the same key and value. -/
def RefMut.downgrade {K V : Type} (m : RefMut K V) : Ref K V :=
  Ref.new (RwLockWriteGuardDetached.downgrade m.guard) m.k m.v

/-- `MappedRefMut` from `one.rs`: a write guard, the borrowed key, and an
exclusively borrowed projected view of the value. -/
structure MappedRefMut (K T : Type) where
  _guard : RwLockWriteGuardDetached
  k : K
  v : T

/-- `MappedRefMut::pair`. -/
def MappedRefMut.pair {K T : Type} (m : MappedRefMut K T) : K × T :=
  (m.k, m.v)

/-- `MappedRefMut::pair_mut`. -/
def MappedRefMut.pair_mut {K T : Type} (m : MappedRefMut K T) : K × T :=
  (m.k, m.v)

/-- `MappedRefMut::key`. -/
def MappedRefMut.key {K T : Type} (m : MappedRefMut K T) : K :=
  m.pair.1

/-- `MappedRefMut::value`. -/
def MappedRefMut.value {K T : Type} (m : MappedRefMut K T) : T :=
  m.pair.2

/-- `MappedRefMut::value_mut`. -/
def MappedRefMut.value_mut {K T : Type} (m : MappedRefMut K T) : T :=
  m.pair_mut.2

/-- `Deref for MappedRefMut`. -/
def MappedRefMut.deref {K T : Type} (m : MappedRefMut K T) : T :=
  m.value

/-- `DerefMut for MappedRefMut` (the exposed target, read side). -/
def MappedRefMut.derefMut {K T : Type} (m : MappedRefMut K T) : T :=
  m.value_mut

/-- `RefMut::map`: the closure gets the exclusive value (`&mut V`, modelled as
state passing) and its returned view becomes the exposed value; the guard and
key move across unchanged. -/
def RefMut.map {K V T : Type} (m : RefMut K V) (f : V → V × T) :
    MappedRefMut K T :=
  ⟨m.guard, m.k, (f m.v).2⟩

/-- `RefMut::try_map`: the closure probes the exclusive value; on `Some` the
projected view is kept, on `None` `Err(self)` hands back the whole original
reference, whose pointee is the value as the closure left it. -/
def RefMut.try_map {K V T : Type} (m : RefMut K V) (f : V → V × Option T) :
    Except (RefMut K V) (MappedRefMut K T) :=
  let fv := f m.v
  match fv.2 with
  | some t => Except.ok ⟨m.guard, m.k, t⟩
  | none => Except.error ⟨m.guard, m.k, fv.1⟩

/-- `RefMutMulti` from `multiple.rs`: a mutable half produced by `map_split`
(shared guard cell threaded explicitly, see `SharedGuard`). -/
structure RefMutMulti (K V : Type) where
  _guard : RwLockWriteGuardDetached
  k : K
  v : V

/-- `RefMutMulti::pair`. -/
def RefMutMulti.pair {K V : Type} (m : RefMutMulti K V) : K × V :=
  (m.k, m.v)

/-- `RefMutMulti::pair_mut`. -/
def RefMutMulti.pair_mut {K V : Type} (m : RefMutMulti K V) : K × V :=
  (m.k, m.v)

/-- `RefMutMulti::key`. -/
def RefMutMulti.key {K V : Type} (m : RefMutMulti K V) : K :=
  m.pair.1

/-- `RefMutMulti::value`. -/
def RefMutMulti.value {K V : Type} (m : RefMutMulti K V) : V :=
  m.pair.2

/-- `RefMutMulti::value_mut`. -/
def RefMutMulti.value_mut {K V : Type} (m : RefMutMulti K V) : V :=
  m.pair_mut.2

/-- `Deref for RefMutMulti`. -/
def RefMutMulti.deref {K V : Type} (m : RefMutMulti K V) : V :=
  m.value

/-- `DerefMut for RefMutMulti` (the exposed target, read side). -/
def RefMutMulti.derefMut {K V : Type} (m : RefMutMulti K V) : V :=
  m.value_mut

/-- `RefMut::map_split`: applies the splitting closure to the exclusive value,
moves the write guard into a shared `Arc` cell (count 1), clones it for the
first half (count 2), and returns the two mutable halves; the cell's state is
returned explicitly. -/
def RefMut.map_split {K V A B : Type} (m : RefMut K V)
    (f : V → V × (A × B)) :
    (RefMutMulti K A × RefMutMulti K B) × SharedGuard RwLockWriteGuardDetached :=
  let ab := (f m.v).2
  let guard := SharedGuard.new m.guard
  let guard2 := guard.clone
  ((⟨m.guard, m.k, ab.1⟩, ⟨m.guard, m.k, ab.2⟩), guard2)

/-- `MappedRef::map`: a further read-only projection of an already projected
reference; the guard and key move across unchanged. -/
def MappedRef.map {K T T2 : Type} (m : MappedRef K T) (f : T → T2) :
    MappedRef K T2 :=
  ⟨m._guard, m.k, f m.v⟩

/-- `MappedRef::try_map`: on `some` the further-projected reference is
returned, on `none` the whole original projected reference is the error. -/
def MappedRef.try_map {K T T2 : Type} (m : MappedRef K T) (f : T → Option T2) :
    Except (MappedRef K T) (MappedRef K T2) :=
  match f m.v with
  | some v => Except.ok ⟨m._guard, m.k, v⟩
  | none => Except.error m

/-- `MappedRefMut::map`: a further exclusive projection; the closure gets the
exposed value exclusively (state passing) and its view becomes the new
exposed value. -/
def MappedRefMut.map {K T T2 : Type} (m : MappedRefMut K T)
    (f : T → T × T2) : MappedRefMut K T2 :=
  ⟨m._guard, m.k, (f m.v).2⟩

/-- `MappedRefMut::try_map`: the closure probes the exposed exclusive value;
on `Some` the narrowed view is kept, on `None` `Err(self)` hands back the
original projected reference, its pointee as the closure left it. -/
def MappedRefMut.try_map {K T T2 : Type} (m : MappedRefMut K T)
    (f : T → T × Option T2) :
    Except (MappedRefMut K T) (MappedRefMut K T2) :=
  let fv := f m.v
  match fv.2 with
  | some t => Except.ok ⟨m._guard, m.k, t⟩
  | none => Except.error ⟨m._guard, m.k, fv.1⟩

/-- Call-counting instrumentation of `Ref.map`: identical control flow, also
threading how many times the projection closure has been invoked. -/
def Ref.mapCt {K V T : Type} (r : Ref K V) (f : V → T) (calls : Nat) :
    MappedRef K T × Nat :=
  let fv := f r.v
  let calls2 := calls + 1
  (⟨r._guard, r.k, fv⟩, calls2)

/-- Call-counting instrumentation of `Ref.try_map`: the closure is invoked
once, before the branch on its result, exactly as in the source. -/
def Ref.try_mapCt {K V T : Type} (r : Ref K V) (f : V → Option T)
    (calls : Nat) : Except (Ref K V) (MappedRef K T) × Nat :=
  let fv := f r.v
  let calls2 := calls + 1
  match fv with
  | some v => (Except.ok ⟨r._guard, r.k, v⟩, calls2)
  | none => (Except.error r, calls2)

/-- Call-counting instrumentation of `Ref.map_split`. -/
def Ref.map_splitCt {K V A B : Type} (r : Ref K V) (f : V → A × B)
    (calls : Nat) :
    ((RefMulti K A × RefMulti K B) × SharedGuard RwLockReadGuardDetached)
      × Nat :=
  let ab := f r.v
  let calls2 := calls + 1
  let guard := SharedGuard.new r._guard
  let guard2 := guard.clone
  (((⟨r._guard, r.k, ab.1⟩, ⟨r._guard, r.k, ab.2⟩), guard2), calls2)

/-- Call-counting instrumentation of `RefMut.map`. -/
def RefMut.mapCt {K V T : Type} (m : RefMut K V) (f : V → V × T)
    (calls : Nat) : MappedRefMut K T × Nat :=
  let fv := f m.v
  let calls2 := calls + 1
  (⟨m.guard, m.k, fv.2⟩, calls2)

/-- Call-counting instrumentation of `RefMut.try_map`: the probing closure is
invoked once, on the success and on the failure path alike. -/
def RefMut.try_mapCt {K V T : Type} (m : RefMut K V) (f : V → V × Option T)
    (calls : Nat) : Except (RefMut K V) (MappedRefMut K T) × Nat :=
  let fv := f m.v
  let calls2 := calls + 1
  match fv.2 with
  | some t => (Except.ok ⟨m.guard, m.k, t⟩, calls2)
  | none => (Except.error ⟨m.guard, m.k, fv.1⟩, calls2)

/-- Call-counting instrumentation of `RefMut.map_split`. -/
def RefMut.map_splitCt {K V A B : Type} (m : RefMut K V)
    (f : V → V × (A × B)) (calls : Nat) :
    ((RefMutMulti K A × RefMutMulti K B)
      × SharedGuard RwLockWriteGuardDetached) × Nat :=
  let ab := (f m.v).2
  let calls2 := calls + 1
  let guard := SharedGuard.new m.guard
  let guard2 := guard.clone
  (((⟨m.guard, m.k, ab.1⟩, ⟨m.guard, m.k, ab.2⟩), guard2), calls2)

/-- Call-counting instrumentation of `MappedRef.map`. -/
def MappedRef.mapCt {K T T2 : Type} (m : MappedRef K T) (f : T → T2)
    (calls : Nat) : MappedRef K T2 × Nat :=
  let fv := f m.v
  let calls2 := calls + 1
  (⟨m._guard, m.k, fv⟩, calls2)

/-- Call-counting instrumentation of `MappedRef.try_map`. -/
def MappedRef.try_mapCt {K T T2 : Type} (m : MappedRef K T)
    (f : T → Option T2) (calls : Nat) :
    Except (MappedRef K T) (MappedRef K T2) × Nat :=
  let fv := f m.v
  let calls2 := calls + 1
  match fv with
  | some v => (Except.ok ⟨m._guard, m.k, v⟩, calls2)
  | none => (Except.error m, calls2)

/-- Call-counting instrumentation of `MappedRefMut.map`. -/
def MappedRefMut.mapCt {K T T2 : Type} (m : MappedRefMut K T)
    (f : T → T × T2) (calls : Nat) : MappedRefMut K T2 × Nat :=
  let fv := f m.v
  let calls2 := calls + 1
  (⟨m._guard, m.k, fv.2⟩, calls2)

/-- Call-counting instrumentation of `MappedRefMut.try_map`. -/
def MappedRefMut.try_mapCt {K T T2 : Type} (m : MappedRefMut K T)
    (f : T → T × Option T2) (calls : Nat) :
    Except (MappedRefMut K T) (MappedRefMut K T2) × Nat :=
  let fv := f m.v
  let calls2 := calls + 1
  match fv.2 with
  | some t => (Except.ok ⟨m._guard, m.k, t⟩, calls2)
  | none => (Except.error ⟨m._guard, m.k, fv.1⟩, calls2)

/-- C2: `map` on a `Ref` or `RefMut` exposes exactly the projection of the
guarded value, with the key unchanged; on `try_map` success the produced
reference exposes exactly the view the closure returned, with the key
unchanged. -/
theorem map_exposes_projection :
    ∀ (K V T : Type) (r : Ref K V) (m : RefMut K V)
      (f : V → T) (g : V → V × T)
      (fo : V → Option T) (go : V → V × Option T) (t : T),
      ((r.map f).value = f r.value ∧ (r.map f).key = r.key) ∧
      ((m.map g).value = (g m.value).2 ∧ (m.map g).key = m.key) ∧
      (fo r.v = some t →
        ∃ mr : MappedRef K T,
          r.try_map fo = Except.ok mr ∧ mr.value = t ∧ mr.key = r.key) ∧
      ((go m.v).2 = some t →
        ∃ mm : MappedRefMut K T,
          m.try_map go = Except.ok mm ∧ mm.value = t ∧ mm.key = m.key) := by
  intro K V T r m f g fo go t
  refine ⟨⟨rfl, rfl⟩, ⟨rfl, rfl⟩, ?_, ?_⟩
  · intro h
    exact ⟨⟨r._guard, r.k, t⟩, by simp [Ref.try_map, h], rfl, rfl⟩
  · intro h
    exact ⟨⟨m.guard, m.k, t⟩, by simp [RefMut.try_map, h], rfl, rfl⟩

/-- Witness for C2: at the concrete reference `(key 3, value 10)` with
projections succeeding concretely. -/
theorem map_exposes_projection_witness :
    ((fun v : Nat => some (v + 1)) 10 = some 11 ∧
      ∃ mr : MappedRef Nat Nat,
        Ref.try_map (Ref.new ⟨0⟩ 3 10) (fun v => some (v + 1)) =
            Except.ok mr ∧
          mr.value = 11 ∧ mr.key = (Ref.new ⟨0⟩ (3 : Nat) (10 : Nat)).key) ∧
    (((fun v : Nat => (v, some (v + 2))) 10).2 = some 12 ∧
      ∃ mm : MappedRefMut Nat Nat,
        RefMut.try_map (RefMut.new ⟨0⟩ 3 10) (fun v => (v, some (v + 2))) =
            Except.ok mm ∧
          mm.value = 12 ∧ mm.key = (RefMut.new ⟨0⟩ (3 : Nat) (10 : Nat)).key) := by
  have h := map_exposes_projection Nat Nat Nat (Ref.new ⟨0⟩ 3 10)
    (RefMut.new ⟨0⟩ 3 10) (fun v => v) (fun v => (v, v))
    (fun v => some (v + 1)) (fun v => (v, some (v + 2))) 11
  have h2 := map_exposes_projection Nat Nat Nat (Ref.new ⟨0⟩ 3 10)
    (RefMut.new ⟨0⟩ 3 10) (fun v => v) (fun v => (v, v))
    (fun v => some (v + 1)) (fun v => (v, some (v + 2))) 12
  exact ⟨⟨rfl, h.2.2.1 rfl⟩, ⟨rfl, h2.2.2.2 rfl⟩⟩

/-- C3: chained projection composes: a second `map` over an
already-projected reference equals the single projection by the composition,
guard and key included, and the exposed value of `r.map f |>.map g` is
`g (f r.value)`; the mutable chain likewise exposes the composed view. -/
theorem map_chain_composes :
    ∀ (K V T T2 T3 : Type) (r : Ref K V) (f : V → T) (g : T → T2)
      (p : MappedRef K T) (f2 : T → T2) (g2 : T2 → T3)
      (m : RefMut K V) (gm : V → V × T) (hm : T → T × T2),
      ((r.map f).map g = r.map (g ∘ f) ∧
        ((r.map f).map g).value = g (f r.value) ∧
        (r.map f).key = r.key ∧ ((r.map f).map g).key = r.key) ∧
      ((p.map f2).map g2 = p.map (g2 ∘ f2) ∧
        ((p.map f2).map g2).value = g2 (f2 p.value) ∧
        ((p.map f2).map g2).key = p.key) ∧
      (((m.map gm).map hm).value = (hm ((gm m.value).2)).2 ∧
        ((m.map gm).map hm).key = m.key) := by
  intro K V T T2 T3 r f g p f2 g2 m gm hm
  exact ⟨⟨rfl, rfl, rfl, rfl⟩, ⟨rfl, rfl, rfl⟩, rfl, rfl⟩

/-- C4: `downgrade` is a total conversion to a `Ref` over the same key and
value location: after a write of `v2` through the mutable reference, the
downgraded reference reads key and `v2`, and its guard is the in-place
converted write guard. -/
theorem downgrade_preserves_key_value :
    ∀ (K V : Type) (m : RefMut K V) (v2 : V),
      m.downgrade.key = m.key ∧
      m.downgrade.value = m.value ∧
      ((m.write v2).downgrade).key = m.key ∧
      ((m.write v2).downgrade).value = v2 ∧
      m.downgrade._guard = RwLockWriteGuardDetached.downgrade m.guard := by
  intro K V m v2
  exact ⟨rfl, rfl, rfl, rfl, rfl⟩

/-- C5: `map_split` returns exactly two shared-owner references, the first
exposing the first component of the split and the second the second
component, both with the key of the original reference. -/
theorem map_split_exposes_halves :
    ∀ (K V A B : Type) (r : Ref K V) (f : V → A × B)
      (m : RefMut K V) (g : V → V × (A × B)),
      ((r.map_split f).1.1.value = (f r.value).1 ∧
        (r.map_split f).1.2.value = (f r.value).2 ∧
        (r.map_split f).1.1.key = r.key ∧
        (r.map_split f).1.2.key = r.key) ∧
      ((m.map_split g).1.1.value = ((g m.value).2).1 ∧
        (m.map_split g).1.2.value = ((g m.value).2).2 ∧
        (m.map_split g).1.1.key = m.key ∧
        (m.map_split g).1.2.key = m.key) := by
  intro K V A B r f m g
  exact ⟨⟨rfl, rfl, rfl, rfl⟩, ⟨rfl, rfl, rfl, rfl⟩⟩

/-- C6: the key is never reprojected: every projection, split, downgrade and
write operation, on every reference kind defining it, leaves the key of every
resulting reference identical to the key of the input reference; only the
value side is transformed. -/
theorem key_never_reprojected :
    ∀ (K V A B T : Type) (r : Ref K V) (m : RefMut K V)
      (p : MappedRef K V) (q : MappedRefMut K V)
      (f : V → T) (fo : V → Option T)
      (g : V → V × T) (go : V → V × Option T)
      (s : V → A × B) (sm : V → V × (A × B)) (v2 : V),
      (r.map f).key = r.key ∧
      (match r.try_map fo with
        | Except.ok mr => mr.key = r.key
        | Except.error e => e.key = r.key) ∧
      (r.map_split s).1.1.key = r.key ∧
      (r.map_split s).1.2.key = r.key ∧
      (m.map g).key = m.key ∧
      (match m.try_map go with
        | Except.ok mm => mm.key = m.key
        | Except.error e => e.key = m.key) ∧
      (m.map_split sm).1.1.key = m.key ∧
      (m.map_split sm).1.2.key = m.key ∧
      m.downgrade.key = m.key ∧
      (m.write v2).key = m.key ∧
      (p.map f).key = p.key ∧
      (match p.try_map fo with
        | Except.ok pr => pr.key = p.key
        | Except.error e => e.key = p.key) ∧
      (q.map g).key = q.key ∧
      (match q.try_map go with
        | Except.ok qr => qr.key = q.key
        | Except.error e => e.key = q.key) := by
  intro K V A B T r m p q f fo g go s sm v2
  refine ⟨rfl, ?_, rfl, rfl, rfl, ?_, rfl, rfl, rfl, rfl, rfl, ?_, rfl, ?_⟩
  · cases h : fo r.v <;>
      simp [Ref.try_map, h, Ref.key, Ref.pair, MappedRef.key, MappedRef.pair]
  · cases h : (go m.v).2 <;>
      simp [RefMut.try_map, h, RefMut.key, RefMut.pair, MappedRefMut.key,
        MappedRefMut.pair]
  · cases h : fo p.v <;>
      simp [MappedRef.try_map, h, MappedRef.key, MappedRef.pair]
  · cases h : (go q.v).2 <;>
      simp [MappedRefMut.try_map, h, MappedRefMut.key, MappedRefMut.pair]

/-- C7: accessor coherence on all six reference kinds: `pair` is exactly
`(key, value)`, `pair_mut` (where present) is exactly `(key, value_mut)`, and
dereferencing yields exactly `value` (`value_mut` for the mutable target);
the shared-owner kinds satisfy the same equations as the projected kinds. -/
theorem accessor_coherence :
    ∀ (K V : Type) (r : Ref K V) (m : RefMut K V) (p : MappedRef K V)
      (q : MappedRefMut K V) (u : RefMulti K V) (w : RefMutMulti K V),
      (r.pair = (r.key, r.value) ∧ r.deref = r.value) ∧
      (m.pair = (m.key, m.value) ∧ m.pair_mut = (m.key, m.value_mut) ∧
        m.deref = m.value ∧ m.derefMut = m.value_mut) ∧
      (p.pair = (p.key, p.value) ∧ p.deref = p.value) ∧
      (q.pair = (q.key, q.value) ∧ q.pair_mut = (q.key, q.value_mut) ∧
        q.deref = q.value ∧ q.derefMut = q.value_mut) ∧
      (u.pair = (u.key, u.value) ∧ u.deref = u.value) ∧
      (w.pair = (w.key, w.value) ∧ w.pair_mut = (w.key, w.value_mut) ∧
        w.deref = w.value ∧ w.derefMut = w.value_mut) := by
  intro K V r m p q u w
  exact ⟨⟨rfl, rfl⟩, ⟨rfl, rfl, rfl, rfl⟩, ⟨rfl, rfl⟩,
    ⟨rfl, rfl, rfl, rfl⟩, ⟨rfl, rfl⟩, ⟨rfl, rfl, rfl, rfl⟩⟩

/-- C8: at the moment `map_split` returns, the single guard sits in a shared
cell with reference count exactly two, one per half (both halves hold the
same guard); the guard is not released while either half is alive, and is
released exactly when both halves have been dropped. -/
theorem map_split_shared_guard_count :
    ∀ (K V A B : Type) (r : Ref K V) (f : V → A × B)
      (m : RefMut K V) (g : V → V × (A × B)),
      ((r.map_split f).2.count = 2 ∧
        (r.map_split f).2.guard = r._guard ∧
        (r.map_split f).1.1._guard = (r.map_split f).1.2._guard ∧
        (r.map_split f).2.isReleased = false ∧
        ((r.map_split f).2.dropOwner).isReleased = false ∧
        (((r.map_split f).2.dropOwner).dropOwner).isReleased = true) ∧
      ((m.map_split g).2.count = 2 ∧
        (m.map_split g).2.guard = m.guard ∧
        (m.map_split g).1.1._guard = (m.map_split g).1.2._guard ∧
        (m.map_split g).2.isReleased = false ∧
        ((m.map_split g).2.dropOwner).isReleased = false ∧
        (((m.map_split g).2.dropOwner).dropOwner).isReleased = true) := by
  intro K V A B r f m g
  exact ⟨⟨rfl, rfl, rfl, rfl, rfl, rfl⟩, ⟨rfl, rfl, rfl, rfl, rfl, rfl⟩⟩

/-- C9: the downgrade conversion is a single atomic lock transition from
write-locked directly to read-locked with one reader: it is defined in no
other state, its target is never the unlocked state, and a writer can acquire
the shard lock neither in the state before the transition nor in the state
after it. -/
theorem downgrade_atomic_no_unlock_window :
    ∀ (s s2 : LockState), downgradeLock s = some s2 →
      s = LockState.writeLocked ∧ s2 = LockState.readLocked 1 ∧
      canAcquireWrite s = false ∧ canAcquireWrite s2 = false ∧
      s2 ≠ LockState.unlocked := by
  intro s s2 h
  cases s with
  | unlocked => simp [downgradeLock] at h
  | readLocked n => simp [downgradeLock] at h
  | writeLocked =>
    simp only [downgradeLock, Option.some.injEq] at h
    subst h
    exact ⟨rfl, rfl, rfl, rfl, by simp⟩

/-- Witness for C9: the transition applied in the write-locked state. -/
theorem downgrade_atomic_no_unlock_window_witness :
    LockState.writeLocked = LockState.writeLocked ∧
    LockState.readLocked 1 = LockState.readLocked 1 ∧
    canAcquireWrite LockState.writeLocked = false ∧
    canAcquireWrite (LockState.readLocked 1) = false ∧
    LockState.readLocked 1 ≠ LockState.unlocked :=
  downgrade_atomic_no_unlock_window LockState.writeLocked
    (LockState.readLocked 1) rfl

/-- C10: every transformation operation (`map`, `try_map`, `map_split`, on
every kind defining them) invokes the supplied closure exactly once on the
currently exposed value, on the success and the failure path alike: the
call-counting instrumentations agree with the plain operations and report
exactly one new invocation. -/
theorem transform_ops_call_f_exactly_once :
    ∀ (K V A B T : Type) (r : Ref K V) (m : RefMut K V)
      (p : MappedRef K V) (q : MappedRefMut K V)
      (f : V → T) (fo : V → Option T)
      (g : V → V × T) (go : V → V × Option T)
      (s : V → A × B) (sm : V → V × (A × B)) (n : Nat),
      Ref.mapCt r f n = (r.map f, n + 1) ∧
      Ref.try_mapCt r fo n = (r.try_map fo, n + 1) ∧
      Ref.map_splitCt r s n = (r.map_split s, n + 1) ∧
      RefMut.mapCt m g n = (m.map g, n + 1) ∧
      RefMut.try_mapCt m go n = (m.try_map go, n + 1) ∧
      RefMut.map_splitCt m sm n = (m.map_split sm, n + 1) ∧
      MappedRef.mapCt p f n = (p.map f, n + 1) ∧
      MappedRef.try_mapCt p fo n = (p.try_map fo, n + 1) ∧
      MappedRefMut.mapCt q g n = (q.map g, n + 1) ∧
      MappedRefMut.try_mapCt q go n = (q.try_map go, n + 1) := by
  intro K V A B T r m p q f fo g go s sm n
  refine ⟨rfl, ?_, rfl, rfl, ?_, rfl, rfl, ?_, rfl, ?_⟩
  · cases h : fo r.v <;> simp [Ref.try_mapCt, Ref.try_map, h]
  · cases h : (go m.v).2 <;> simp [RefMut.try_mapCt, RefMut.try_map, h]
  · cases h : fo p.v <;> simp [MappedRef.try_mapCt, MappedRef.try_map, h]
  · cases h : (go q.v).2 <;>
      simp [MappedRefMut.try_mapCt, MappedRefMut.try_map, h]

/-- C1 counterexample: the claim that a failed `try_map` leaves the returned
`Err` reference exposing the same value as before the call is false for
`RefMut`: the probing closure receives the value through the exclusive
reference and may write to it before failing. At key 7, value 0, with the
failing closure that first increments the value, the `Err` reference exposes
1, not the pre-call value 0. -/
theorem refMut_try_map_failure_value_mutated_cex :
    ((fun v : Nat => ((v + 1 : Nat), (none : Option Nat))) 0).2 = none ∧
    RefMut.try_map (RefMut.new ⟨0⟩ (7 : Nat) (0 : Nat))
        (fun v => (v + 1, (none : Option Nat))) =
      Except.error (RefMut.new ⟨0⟩ 7 1) ∧
    (RefMut.new ⟨0⟩ (7 : Nat) (1 : Nat)).value ≠
      (RefMut.new ⟨0⟩ (7 : Nat) (0 : Nat)).value := by
  refine ⟨rfl, rfl, ?_⟩
  decide

/-- C1 (amended): a failed `try_map` hands the entire original reference back
as the `Err` outcome. For the read-only kinds (`Ref`, `MappedRef`) it is the
original reference bit for bit — same guard, key and value — so subsequent
reads behave identically to a reference on which `try_map` was never called.
For the mutable kinds (`RefMut`, `MappedRefMut`) the `Err` reference keeps
the original guard, key and value location, its pointee being the value as
the probing closure left it; whenever the closure did not write, it is
exactly the original reference, and subsequent reads and writes through it
behave identically. -/
theorem try_map_failure_returns_original :
    ∀ (K V T : Type) (r : Ref K V) (p : MappedRef K V)
      (m : RefMut K V) (q : MappedRefMut K V)
      (fo : V → Option T) (go : V → V × Option T),
      (fo r.v = none → r.try_map fo = Except.error r) ∧
      (fo p.v = none → p.try_map fo = Except.error p) ∧
      ((go m.v).2 = none →
        m.try_map go = Except.error (RefMut.mk m.guard m.k (go m.v).1) ∧
        ((go m.v).1 = m.v → m.try_map go = Except.error m)) ∧
      ((go q.v).2 = none →
        q.try_map go =
            Except.error (MappedRefMut.mk q._guard q.k (go q.v).1) ∧
        ((go q.v).1 = q.v → q.try_map go = Except.error q)) := by
  intro K V T r p m q fo go
  refine ⟨?_, ?_, ?_, ?_⟩
  · intro h
    simp [Ref.try_map, h]
  · intro h
    simp [MappedRef.try_map, h]
  · intro h
    refine ⟨by simp [RefMut.try_map, h], ?_⟩
    intro h2
    cases m
    simp_all [RefMut.try_map]
  · intro h
    refine ⟨by simp [MappedRefMut.try_map, h], ?_⟩
    intro h2
    cases q
    simp_all [MappedRefMut.try_map]

/-- Witness for C1 (amended): concrete failing projections on a `Ref` and on
a `RefMut` whose closure does not write. -/
theorem try_map_failure_returns_original_witness :
    (Ref.try_map (Ref.new ⟨0⟩ (7 : Nat) (5 : Nat))
        (fun _ => (none : Option Nat)) =
      Except.error (Ref.new ⟨0⟩ 7 5)) ∧
    (RefMut.try_map (RefMut.new ⟨0⟩ (7 : Nat) (5 : Nat))
        (fun v => (v, (none : Option Nat))) =
      Except.error (RefMut.new ⟨0⟩ 7 5)) := by
  have h := try_map_failure_returns_original Nat Nat Nat
    (Ref.new ⟨0⟩ 7 5) ⟨⟨0⟩, 7, 5⟩ (RefMut.new ⟨0⟩ 7 5) ⟨⟨0⟩, 7, 5⟩
    (fun _ => none) (fun v => (v, none))
  exact ⟨h.1 rfl, (h.2.2.1 rfl).2 rfl⟩
